import Mathlib

/-!
Shallow embedding of the omnidim-python-sdk core: the HTTP client
(`omnidimension/client.py`) and the domain wrappers `Agent` and `Call`
(`omnidimension/Agent/__init__.py`, `omnidimension/Call/__init__.py`).

Python dynamic values are modelled by `PyVal`; Python dicts by association
lists (first occurrence wins on lookup, as Python dicts have unique keys);
raised exceptions by `Except` results.  A network request is never actually
performed: a domain-wrapper call evaluates to the HTTP request it would
dispatch (`.ok`) or to the exception raised before any network call
(`.error`), and `Client.request` takes the transport's behaviour
(`TransportResult`) as an explicit argument and returns the dispatched
request together with the outcome.
-/

namespace Omnidim

/-- A Python runtime value, as far as the SDK's validation logic inspects
values: `None`, `bool`, `int`, `str`, `list`, `dict` (JSON-shaped). -/
inductive PyVal where
  | none
  | bool (b : Bool)
  | int (n : Int)
  | str (s : String)
  | list (xs : List PyVal)
  | dict (kvs : List (String × PyVal))

/-- Python `isinstance(v, str)`. -/
def PyVal.isStr : PyVal → Bool
  | .str _ => true
  | _ => false

/-- Python `isinstance(v, int)`.  `bool` is a subclass of `int` in Python,
so Boolean values also count. -/
def PyVal.isInt : PyVal → Bool
  | .int _ => true
  | .bool _ => true
  | _ => false

/-- Python `isinstance(v, list)`. -/
def PyVal.isList : PyVal → Bool
  | .list _ => true
  | _ => false

/-- Python `isinstance(v, dict)`. -/
def PyVal.isDict : PyVal → Bool
  | .dict _ => true
  | _ => false

/-- A Python exception other than a successful return. -/
inductive PyError where
  | valueError (msg : String)
  | typeError
  | indexError
deriving DecidableEq

/-- Python `v == '+'`: true exactly when `v` is the one-character string
`"+"` (comparison between a value and a string literal). -/
def pyEqPlusSign : PyVal → Bool
  | .str s => s = "+"
  | _ => false

/-- Python `v[0]`: first character of a string (as a 1-character string),
first element of a list; `IndexError` when empty, `TypeError` on
non-subscriptable values. -/
def pyIndex0 : PyVal → Except PyError PyVal
  | .str s =>
      match s.data with
      | [] => .error .indexError
      | c :: _ => .ok (.str (String.mk [c]))
  | .list [] => .error .indexError
  | .list (x :: _) => .ok x
  | _ => .error .typeError

/-- Python `s.rstrip('/')`: remove every trailing `'/'`. -/
def pyRstripSlash (s : String) : String :=
  String.mk ((s.data.reverse.dropWhile (fun c => c = '/')).reverse)

/-- Python `s.lstrip('/')`: remove every leading `'/'`. -/
def pyLstripSlash (s : String) : String :=
  String.mk (s.data.dropWhile (fun c => c = '/'))

/-- First-occurrence lookup in a Python dict modelled as an association
list. -/
def pyLookup (kvs : List (String × PyVal)) (k : String) : Option PyVal :=
  match kvs.find? (fun p => p.1 = k) with
  | some p => some p.2
  | Option.none => Option.none

/-- Python `d.get(k, default)`. -/
def pyGetD (kvs : List (String × PyVal)) (k : String) (d : PyVal) : PyVal :=
  (pyLookup kvs k).getD d

/-- Python `k in d`. -/
def pyHasKey (kvs : List (String × PyVal)) (k : String) : Bool :=
  (pyLookup kvs k).isSome

/-- Python `d[k] = v` on a dict: replace the value of the existing key in
place (dict keys are unique, so the first occurrence is the occurrence),
append at the end otherwise. -/
def pyDictSet : List (String × PyVal) → String → PyVal →
    List (String × PyVal)
  | [], k, v => [(k, v)]
  | p :: t, k, v => if p.1 = k then (k, v) :: t else p :: pyDictSet t k v

/-- Python `{**d, **extra}` merging: each `extra` entry is set in order,
later keys overriding earlier ones. -/
def pyDictUpdate (kvs extra : List (String × PyVal)) :
    List (String × PyVal) :=
  extra.foldl (fun acc p => pyDictSet acc p.1 p.2) kvs

/-- Python `d.setdefault(k, v)` on a string-valued header dict. -/
def pySetdefault (d : List (String × String)) (k v : String) :
    List (String × String) :=
  if (d.find? (fun p => p.1 = k)).isSome then d else d ++ [(k, v)]

/-- Python `s.strip()`: remove leading and trailing whitespace. -/
def pyStrip (s : String) : String :=
  String.mk (((s.data.dropWhile Char.isWhitespace).reverse.dropWhile
    Char.isWhitespace).reverse)

/-- Python `s.upper()` (ASCII, sufficient for HTTP method strings). -/
def pyUpper (s : String) : String :=
  String.mk (s.data.map Char.toUpper)

/-- The state a `Client` object holds after `Client.__init__`
(`client.py`, lines 14-38).  The lazily created domain sub-clients carry
no state of their own and are omitted. -/
structure ClientState where
  api_key : String
  base_url : String
deriving DecidableEq

/-- `Client.__init__(api_key, base_url)` (`client.py`, lines 14-38),
restricted to string-typed `api_key` (so `isinstance(api_key, str)` always
holds): raise `ValueError` when `api_key` is falsy (empty), store the key
and `base_url.rstrip('/')`, then raise `ValueError` when
`len(api_key.strip()) < 8`.  An `.error` result means `__init__` raised,
so no client instance is produced. -/
def Client.init (api_key : String) (base_url : String) :
    Except PyError ClientState :=
  if api_key = "" then
    .error (.valueError "API key is required.")
  else
    let st : ClientState := { api_key := api_key, base_url := pyRstripSlash base_url }
    if (pyStrip api_key).length < 8 then
      .error (.valueError "API key appears to be invalid. Please check your credentials.")
    else
      .ok st

/-- The HTTP request handed to `requests.request` in `Client.request`
(`client.py`, lines 74-81). -/
structure HTTPRequest where
  method : String
  url : String
  params : List (String × PyVal)
  headers : List (String × String)
  data : Option PyVal
  json_data : Option PyVal

/-- An HTTP response as `Client.request` inspects it: status code, raw
body (`response.content`, as a string), the result of `response.json()`
(`some v` when the body parses as JSON, `Option.none` when `.json()`
raises `ValueError`), and the `str(e)` rendering of the `HTTPError` that
`raise_for_status()` raises on a 4xx/5xx status. -/
structure HTTPResponse where
  status : Nat
  content : String
  parsed : Option PyVal
  errStr : String

/-- What the transport (the `requests` library) did for the one network
call `Client.request` makes: either an HTTP response arrived, or a
`RequestException` was raised with message `msg` (connection error, DNS
failure, timeout — no response received). -/
inductive TransportResult where
  | response (r : HTTPResponse)
  | failure (msg : String)

/-- The `APIError` exception (`client.py`, lines 5-11): status code,
message (a Python value, since an `error`/`error_description` field may
hold any JSON value), and the `response` attribute (`PyVal.none` when the
constructor's default `None` is used). -/
structure APIErrorRec where
  status_code : Nat
  message : PyVal
  response : PyVal

/-- Outcome of one `Client.request` call. `envelope` is the returned
`{"status": ..., "json": ...}` dict; `apiError` a raised `APIError`;
`jsonDecodeFailure` models `response.json()` raising on the success path
(a non-empty non-JSON 2xx body), which no handler in `Client.request`
deals with uniformly across `requests` versions. -/
inductive ReqOutcome where
  | envelope (status : Nat) (json : PyVal)
  | apiError (e : APIErrorRec)
  | jsonDecodeFailure

/-- The URL built at `client.py` line 70:
`self.base_url + '/' + endpoint.lstrip('/')`. -/
def Client.requestUrl (c : ClientState) (endpoint : String) : String :=
  c.base_url ++ "/" ++ pyLstripSlash endpoint

/-- The part of `Client.request` after the transport call (`client.py`,
lines 83-119), given the already upper-cased method and the transport's
behaviour: `raise_for_status()` raises `HTTPError` exactly on 4xx/5xx,
whose handler extracts the message (`error_description`, then `error`,
then `str(e)`; a parse failure or a non-dict JSON body also falls back to
`str(e)`); otherwise the response envelope is built (`{}` for DELETE,
else the parsed body when `response.content` is non-empty, else `{}`);
a `RequestException` becomes `APIError(0, "Network error: ...")`. -/
def Client.handleResponse (methodU : String) (t : TransportResult) : ReqOutcome :=
  match t with
  | .response r =>
      if 400 ≤ r.status ∧ r.status < 600 then
        match r.parsed with
        | Option.none =>
            .apiError { status_code := r.status, message := .str r.errStr,
                        response := .dict [] }
        | some (.dict kvs) =>
            .apiError { status_code := r.status,
                        message := pyGetD kvs "error_description"
                          (pyGetD kvs "error" (.str r.errStr)),
                        response := .dict kvs }
        | some v =>
            .apiError { status_code := r.status, message := .str r.errStr,
                        response := v }
      else
        if methodU = "DELETE" then
          .envelope r.status (.dict [])
        else if r.content = "" then
          .envelope r.status (.dict [])
        else
          match r.parsed with
          | some j => .envelope r.status j
          | Option.none => .jsonDecodeFailure

  | .failure msg =>
      .apiError { status_code := 0, message := .str ("Network error: " ++ msg),
                  response := PyVal.none }

/-- `Client.request(method, endpoint, params, headers, data, json_data)`
(`client.py`, lines 40-119).  Returns the `HTTPRequest` handed to
`requests.request` (the request is always dispatched — the method string
is upper-cased but never validated) together with the outcome for the
given transport behaviour. -/
def Client.request (c : ClientState) (method endpoint : String)
    (params : Option (List (String × PyVal)))
    (headers : Option (List (String × String)))
    (data json_data : Option PyVal) (t : TransportResult) :
    HTTPRequest × ReqOutcome :=
  let headers0 := headers.getD []
  let params0 := params.getD []
  let methodU := pyUpper method
  let headers1 := pySetdefault headers0 "Authorization" ("Bearer " ++ c.api_key)
  let headers2 := pySetdefault headers1 "Content-Type" "application/json"
  let headers3 := pySetdefault headers2 "Accept" "application/json"
  ({ method := methodU, url := Client.requestUrl c endpoint,
     params := params0, headers := headers3,
     data := data, json_data := json_data },
   Client.handleResponse methodU t)

/-- `Client.get` (`client.py`, lines 122-124). -/
def Client.get (c : ClientState) (endpoint : String)
    (params : Option (List (String × PyVal)))
    (headers : Option (List (String × String))) (t : TransportResult) :
    HTTPRequest × ReqOutcome :=
  Client.request c "GET" endpoint params headers Option.none Option.none t

/-- `Client.post` (`client.py`, lines 126-128): the body argument `data`
is forwarded as `json_data`. -/
def Client.post (c : ClientState) (endpoint : String) (data : Option PyVal)
    (params : Option (List (String × PyVal)))
    (headers : Option (List (String × String))) (t : TransportResult) :
    HTTPRequest × ReqOutcome :=
  Client.request c "POST" endpoint params headers Option.none data t

/-- `Client.put` (`client.py`, lines 130-132). -/
def Client.put (c : ClientState) (endpoint : String) (data : Option PyVal)
    (params : Option (List (String × PyVal)))
    (headers : Option (List (String × String))) (t : TransportResult) :
    HTTPRequest × ReqOutcome :=
  Client.request c "PUT" endpoint params headers Option.none data t

/-- `Client.delete` (`client.py`, lines 134-136). -/
def Client.delete (c : ClientState) (endpoint : String)
    (params : Option (List (String × PyVal)))
    (headers : Option (List (String × String))) (t : TransportResult) :
    HTTPRequest × ReqOutcome :=
  Client.request c "DELETE" endpoint params headers Option.none Option.none t

/-- A `self.client.post(endpoint, data=...)` call a domain wrapper is
about to make: the network call that would be dispatched.  A wrapper
returning `.error` raised before this point, so zero network calls were
performed. -/
structure PostCall where
  endpoint : String
  data : PyVal

/-- `Call.dispatch_call(agent_id, to_number, call_context)`
(`Call/__init__.py`, lines 12-39).  The second check is modelled with
Python's short-circuit `and`:
`not isinstance(to_number, str) and to_number[0] != '+'`, where for a
string `to_number` the left operand is already false, so `to_number[0]`
is never evaluated. -/
def Call.dispatch_call (agent_id to_number : PyVal)
    (call_context : PyVal) : Except PyError PostCall := do
  if !agent_id.isInt then
    throw (.valueError "agent id must be a integer.")
  let cond ←
    if to_number.isStr then
      pure false
    else do
      let h ← pyIndex0 to_number
      pure (!(pyEqPlusSign h))
  if cond then
    throw (.valueError "To Number must be a valid number and starts with + and country code.")
  pure { endpoint := "calls/dispatch",
         data := .dict [("agent_id", agent_id), ("to_number", to_number),
                        ("call_context", call_context)] }

/-- One element check of `Agent.create`'s validation
(`Agent/__init__.py`, lines 60-63):
`isinstance(context, dict) and 'title' in context and 'body' in context`. -/
def contextEntryOk : PyVal → Bool
  | .dict kvs => pyHasKey kvs "title" && pyHasKey kvs "body"
  | _ => false

/-- `isinstance(context_breakdown, list) and all(... for context in ...)`
(`Agent/__init__.py`, lines 60-63). -/
def validContextBreakdown : PyVal → Bool
  | .list xs => xs.all contextEntryOk
  | _ => false

/-- `Agent.create(name, context_breakdown, **kwargs)`
(`Agent/__init__.py`, lines 41-75).  The payload is the Python dict
literal `{"name": name, "context_breakdown": context_breakdown, **kwargs}`;
`kwargs` is an association list with distinct keys (Python keyword
arguments), merged entry by entry with later keys overriding. -/
def Agent.create (name context_breakdown : PyVal)
    (kwargs : List (String × PyVal)) : Except PyError PostCall :=
  if !name.isStr then
    .error (.valueError "name must be a string.")
  else if !validContextBreakdown context_breakdown then
    .error (.valueError "context_breakdown must be a list of dictionaries with 'title' and 'body'.")
  else
    .ok { endpoint := "agents/create",
          data := .dict (pyDictUpdate
            [("name", name), ("context_breakdown", context_breakdown)] kwargs) }

/-- True when a wrapper call raised `ValueError` — the SDK's validation
failure — before reaching the network: no `PostCall` was produced, so zero
network calls were performed. -/
def raisesValueError {α : Type} : Except PyError α → Bool
  | .error (.valueError _) => true
  | _ => false

/-- The value a field of the dispatched payload would carry: `some v` when
the wrapper call dispatched a dict payload mapping `k` to `v`, `Option.none`
when the call raised or the payload is not a dict. -/
def payloadField (r : Except PyError PostCall) (k : String) : Option PyVal :=
  match r with
  | .ok p =>
      match p.data with
      | .dict kvs => pyLookup kvs k
      | _ => Option.none
  | .error _ => Option.none

/-! ### Association-list and string lemmas -/

theorem pyLookup_pyDictSet_self (d : List (String × PyVal)) (k : String)
    (v : PyVal) : pyLookup (pyDictSet d k v) k = some v := by
  induction d with
  | nil => simp [pyDictSet, pyLookup, List.find?]
  | cons p t ih =>
      by_cases h : p.1 = k
      · simp [pyDictSet, h, pyLookup, List.find?]
      · simpa [pyDictSet, h, pyLookup, List.find?] using ih

theorem pyLookup_pyDictSet_ne (d : List (String × PyVal)) (k k' : String)
    (v : PyVal) (h : k' ≠ k) :
    pyLookup (pyDictSet d k v) k' = pyLookup d k' := by
  induction d with
  | nil => simp [pyDictSet, pyLookup, List.find?, Ne.symm h]
  | cons p t ih =>
      by_cases hp : p.1 = k
      · simp [pyDictSet, hp, pyLookup, List.find?, Ne.symm h]
      · by_cases hp' : p.1 = k'
        · simp [pyDictSet, hp, pyLookup, List.find?, hp', h]
        · simpa [pyDictSet, hp, pyLookup, List.find?, hp'] using ih

theorem pyLookup_pyDictUpdate_not_mem (extra : List (String × PyVal))
    (d : List (String × PyVal)) (k : String)
    (h : k ∉ extra.map Prod.fst) :
    pyLookup (pyDictUpdate d extra) k = pyLookup d k := by
  induction extra generalizing d with
  | nil => rfl
  | cons p t ih =>
      simp only [List.map_cons, List.mem_cons] at h
      push_neg at h
      calc pyLookup (pyDictUpdate (pyDictSet d p.1 p.2) t) k
          = pyLookup (pyDictSet d p.1 p.2) k := ih _ h.2
        _ = pyLookup d k := pyLookup_pyDictSet_ne _ _ _ _ h.1

theorem pyLookup_pyDictUpdate_mem (extra : List (String × PyVal))
    (d : List (String × PyVal)) (k : String) (v : PyVal)
    (hnd : (extra.map Prod.fst).Nodup) (hmem : (k, v) ∈ extra) :
    pyLookup (pyDictUpdate d extra) k = some v := by
  induction extra generalizing d with
  | nil => cases hmem
  | cons p t ih =>
      simp only [List.map_cons, List.nodup_cons] at hnd
      rcases List.mem_cons.mp hmem with hk | hk
      · subst hk
        calc pyLookup (pyDictUpdate (pyDictSet d k v) t) k
            = pyLookup (pyDictSet d k v) k :=
              pyLookup_pyDictUpdate_not_mem t _ k hnd.1
          _ = some v := pyLookup_pyDictSet_self d k v
      · exact ih _ hnd.2 hk

theorem pyRstripSlash_append_slash (s : String) :
    pyRstripSlash (s ++ "/") = pyRstripSlash s := by
  cases s with
  | mk l =>
      show pyRstripSlash (String.mk (l ++ ['/'])) = pyRstripSlash (String.mk l)
      simp [pyRstripSlash, List.dropWhile]

theorem pyRstripSlash_of_no_trailing_slash (s : String)
    (h : s.data.getLast? ≠ some '/') : pyRstripSlash s = s := by
  cases s with
  | mk l =>
      cases hr : l.reverse with
      | nil =>
          have : l = [] := by simpa using congrArg List.reverse hr
          subst this
          rfl
      | cons c t =>
          have hc : c ≠ '/' := by
            intro hc
            apply h
            have : l.getLast? = some c := by
              rw [← List.head?_reverse, hr]
              rfl
            simpa [hc] using this
          have hlt : l = (c :: t).reverse := by
            simpa using congrArg List.reverse hr
          simp only [pyRstripSlash, hr]
          rw [List.dropWhile_cons_of_neg (by simpa using hc)]
          simp [hlt]

theorem pyLstripSlash_slash_append (s : String) :
    pyLstripSlash ("/" ++ s) = pyLstripSlash s := by
  cases s with
  | mk l =>
      show pyLstripSlash (String.mk ('/' :: l)) = pyLstripSlash (String.mk l)
      simp [pyLstripSlash, List.dropWhile]

/-! ### Claim theorems -/

/-- Claim C1 (code evidence): contrary to the claim, `Call.dispatch_call`
accepts every string `to_number` — in particular every string not starting
with `'+'` — for every integer `agent_id`: the validation condition
`not isinstance(to_number, str) and to_number[0] != '+'` short-circuits to
false for a string, so no `ValueError` is raised and the payload is built
and dispatched to the `calls/dispatch` endpoint. -/
theorem dispatch_call_sends_any_string_to_number :
    ∀ (n : Int) (s : String) (ctx : PyVal),
      Call.dispatch_call (.int n) (.str s) ctx =
        .ok { endpoint := "calls/dispatch",
              data := .dict [("agent_id", .int n), ("to_number", .str s),
                             ("call_context", ctx)] } :=
  fun _ _ _ => rfl

/-- Claim C2 (counterexample): with a valid api_key and an empty base_url,
`Client.__init__` raises nothing and a client instance is produced — the
code contains no check on base_url at all, so construction does not fail
whenever base_url is empty. -/
theorem client_init_accepts_empty_base_url :
    Client.init "abcdefgh" "" =
      .ok { api_key := "abcdefgh", base_url := "" } :=
  rfl

/-- Claim C2 (amended): client construction fails exactly when the api_key
is empty or fails the minimal sanity check (its stripped length is below
the minimum length 8); base_url is never validated.  For every invalid
api_key no client instance is produced: the result is the raised error,
never an `.ok` state. -/
theorem client_init_ok_iff :
    ∀ (k u : String),
      (∃ st, Client.init k u = .ok st) ↔
        ¬(k = "" ∨ (pyStrip k).length < 8) := by
  intro k u
  unfold Client.init
  by_cases h1 : k = ""
  · simp [h1]
  · by_cases h2 : (pyStrip k).length < 8
    · simp [h1, h2]
    · simp [h1, h2]

/-- Claim C3: an HTTP error status (4xx/5xx) makes `Client.request` raise
`APIError` carrying the HTTP status code and a message extracted from the
response body: the body's `error_description` field if present, else the
body's `error` field if present, else the raw error string when the body
is not parseable JSON. -/
theorem request_http_error_raises_apierror :
    ∀ (c : ClientState) (m ep : String)
      (p : Option (List (String × PyVal)))
      (h : Option (List (String × String)))
      (d j : Option PyVal) (r : HTTPResponse),
      400 ≤ r.status → r.status < 600 →
      ((r.parsed = Option.none →
         (Client.request c m ep p h d j (.response r)).2 =
           .apiError { status_code := r.status, message := .str r.errStr,
                       response := .dict [] }) ∧
       (∀ kvs v, r.parsed = some (.dict kvs) →
         pyLookup kvs "error_description" = some v →
         (Client.request c m ep p h d j (.response r)).2 =
           .apiError { status_code := r.status, message := v,
                       response := .dict kvs }) ∧
       (∀ kvs v, r.parsed = some (.dict kvs) →
         pyLookup kvs "error_description" = Option.none →
         pyLookup kvs "error" = some v →
         (Client.request c m ep p h d j (.response r)).2 =
           .apiError { status_code := r.status, message := v,
                       response := .dict kvs })) := by
  intro c m ep p h d j r h4 h6
  have hcond : 400 ≤ r.status ∧ r.status < 600 := ⟨h4, h6⟩
  refine ⟨?_, ?_, ?_⟩
  · intro hp
    simp [Client.request, Client.handleResponse, hcond, hp]
  · intro kvs v hp hl
    simp [Client.request, Client.handleResponse, hcond, hp, pyGetD, hl]
  · intro kvs v hp hl1 hl2
    simp [Client.request, Client.handleResponse, hcond, hp, pyGetD, hl1, hl2]

/-- Claim C3 (witness): a mocked 404 with JSON body holding
`error = "not found"` on a GET of `agents/999` raises `APIError` with
status code 404 and message `"not found"`. -/
theorem request_http_error_raises_apierror_witness :
    (Client.get { api_key := "abcdefgh", base_url := "https://x/api/v1" }
        "agents/999" Option.none Option.none
        (.response { status := 404, content := "error body",
                     parsed := some (.dict [("error", .str "not found")]),
                     errStr := "404 Client Error" })).2 =
      .apiError { status_code := 404, message := .str "not found",
                  response := .dict [("error", .str "not found")] } :=
  (request_http_error_raises_apierror
      { api_key := "abcdefgh", base_url := "https://x/api/v1" } "GET"
      "agents/999" Option.none Option.none Option.none Option.none
      { status := 404, content := "error body",
        parsed := some (.dict [("error", .str "not found")]),
        errStr := "404 Client Error" }
      (by decide) (by decide)).2.2
    [("error", .str "not found")] (.str "not found") rfl rfl rfl

/-- Claim C4: a transport-level failure (connection error, DNS failure,
timeout — no HTTP response received) makes `Client.request`, and with it
every convenience wrapper, raise `APIError` with status code 0 and a
message describing the network failure; the failure is surfaced as the
call's outcome, neither retried (the model performs exactly one transport
interaction per call) nor swallowed. -/
theorem request_transport_failure_raises_apierror_zero :
    ∀ (c : ClientState) (m ep : String)
      (p : Option (List (String × PyVal)))
      (h : Option (List (String × String)))
      (d j : Option PyVal) (msg : String),
      (Client.request c m ep p h d j (.failure msg)).2 =
          .apiError { status_code := 0,
                      message := .str ("Network error: " ++ msg),
                      response := PyVal.none } ∧
      (Client.get c ep p h (.failure msg)).2 =
          .apiError { status_code := 0,
                      message := .str ("Network error: " ++ msg),
                      response := PyVal.none } ∧
      (Client.post c ep d p h (.failure msg)).2 =
          .apiError { status_code := 0,
                      message := .str ("Network error: " ++ msg),
                      response := PyVal.none } ∧
      (Client.put c ep d p h (.failure msg)).2 =
          .apiError { status_code := 0,
                      message := .str ("Network error: " ++ msg),
                      response := PyVal.none } ∧
      (Client.delete c ep p h (.failure msg)).2 =
          .apiError { status_code := 0,
                      message := .str ("Network error: " ++ msg),
                      response := PyVal.none } :=
  fun _ _ _ _ _ _ _ _ => ⟨rfl, rfl, rfl, rfl, rfl⟩

/-- Claim C5: a 2xx response makes `Client.request` return the
`{status, json}` envelope: for DELETE requests the json field is the empty
mapping regardless of the response body; for every other method it is the
parsed JSON body when the body is non-empty and the empty mapping when the
body is empty. -/
theorem request_2xx_returns_envelope :
    ∀ (c : ClientState) (m ep : String)
      (p : Option (List (String × PyVal)))
      (h : Option (List (String × String)))
      (d j : Option PyVal) (r : HTTPResponse),
      200 ≤ r.status → r.status < 300 →
      ((pyUpper m = "DELETE" →
         (Client.request c m ep p h d j (.response r)).2 =
           .envelope r.status (.dict [])) ∧
       (pyUpper m ≠ "DELETE" → r.content = "" →
         (Client.request c m ep p h d j (.response r)).2 =
           .envelope r.status (.dict [])) ∧
       (∀ jv, pyUpper m ≠ "DELETE" → r.content ≠ "" → r.parsed = some jv →
         (Client.request c m ep p h d j (.response r)).2 =
           .envelope r.status jv)) := by
  intro c m ep p h d j r h2 h3
  have hcond : ¬(400 ≤ r.status ∧ r.status < 600) := by omega
  refine ⟨?_, ?_, ?_⟩
  · intro hm
    simp [Client.request, Client.handleResponse, hcond, hm]
  · intro hm hc
    simp [Client.request, Client.handleResponse, hcond, hm, hc]
  · intro jv hm hc hp
    simp [Client.request, Client.handleResponse, hcond, hm, hc, hp]

/-- Claim C5 (witness): a DELETE with a 2xx status and a non-empty JSON
body still yields the envelope with an empty json mapping. -/
theorem request_2xx_returns_envelope_witness :
    (Client.request { api_key := "abcdefgh", base_url := "https://x" }
        "delete" "agents/7" Option.none Option.none Option.none Option.none
        (.response { status := 204, content := "payload",
                     parsed := some (.str "payload"),
                     errStr := "" })).2 =
      .envelope 204 (.dict []) :=
  (request_2xx_returns_envelope
      { api_key := "abcdefgh", base_url := "https://x" } "delete"
      "agents/7" Option.none Option.none Option.none Option.none
      { status := 204, content := "payload",
        parsed := some (.str "payload"), errStr := "" }
      (by decide) (by decide)).1 rfl

/-- Claim C6: URL construction is insensitive to a trailing slash on
base_url and to a leading slash on the endpoint: base_url
`"https://x/api/v1/"` and base_url `"https://x/api/v1"` store the same
normalized base_url, endpoint `"agents/42"` produces exactly
`"https://x/api/v1/agents/42"`, and an endpoint passed with a leading
slash yields the same URL — joined by a single separator — as without
it; the URL `Client.request` dispatches is exactly `Client.requestUrl`. -/
theorem request_url_slash_insensitive :
    Client.init "abcdefgh" "https://x/api/v1/" =
        .ok { api_key := "abcdefgh", base_url := "https://x/api/v1" } ∧
    Client.init "abcdefgh" "https://x/api/v1" =
        .ok { api_key := "abcdefgh", base_url := "https://x/api/v1" } ∧
    Client.requestUrl { api_key := "abcdefgh", base_url := "https://x/api/v1" }
        "agents/42" = "https://x/api/v1/agents/42" ∧
    Client.requestUrl { api_key := "abcdefgh", base_url := "https://x/api/v1" }
        "/agents/42" = "https://x/api/v1/agents/42" ∧
    (∀ (c : ClientState) (ep : String),
      Client.requestUrl c ("/" ++ ep) = Client.requestUrl c ep) ∧
    (∀ (c : ClientState) (m ep : String)
       (p : Option (List (String × PyVal)))
       (h : Option (List (String × String)))
       (d j : Option PyVal) (t : TransportResult),
      (Client.request c m ep p h d j t).1.url = Client.requestUrl c ep) :=
  ⟨rfl, rfl, rfl, rfl,
   fun c ep =>
     congrArg (fun s => c.base_url ++ "/" ++ s) (pyLstripSlash_slash_append ep),
   fun _ _ _ _ _ _ _ _ => rfl⟩

/-- Claim C7 (counterexample): for an input ending in two trailing
slashes, `Client.__init__` removes both of them, not exactly one: the
stored base_url for `"http://x//"` is `"http://x"`, while removing exactly
one slash would leave `"http://x/"`. -/
theorem client_init_strips_both_trailing_slashes :
    Client.init "abcdefgh" "http://x//" =
        .ok { api_key := "abcdefgh", base_url := "http://x" } ∧
    ("http://x" : String) ≠ "http://x/" :=
  ⟨rfl, by decide⟩

/-- Claim C7 (amended): at construction the stored base_url is the given
base_url with every trailing slash stripped (Python `rstrip('/')`): an
input without a trailing slash is stored unchanged, so an input ending in
exactly one slash loses that one slash, and an input ending in several
slashes loses all of them. -/
theorem client_init_base_url_normalization :
    ∀ (k u : String) (st : ClientState),
      Client.init k u = .ok st →
      st.base_url = pyRstripSlash u ∧
      pyRstripSlash (u ++ "/") = pyRstripSlash u ∧
      (u.data.getLast? ≠ some '/' → pyRstripSlash u = u) := by
  intro k u st h
  refine ⟨?_, pyRstripSlash_append_slash u, pyRstripSlash_of_no_trailing_slash u⟩
  unfold Client.init at h
  by_cases h1 : k = ""
  · simp [h1] at h
  · by_cases h2 : (pyStrip k).length < 8
    · simp [h1, h2] at h
    · simp [h1, h2] at h
      rw [← h]

/-- Claim C7 (amended, witness): the normalization at the concrete input
`"http://x//"`. -/
theorem client_init_base_url_normalization_witness :
    Client.init "abcdefgh" "http://x//" =
        .ok { api_key := "abcdefgh", base_url := "http://x" } ∧
    ("http://x" : String) = pyRstripSlash "http://x//" :=
  ⟨rfl,
   (client_init_base_url_normalization "abcdefgh" "http://x//"
      { api_key := "abcdefgh", base_url := "http://x" } rfl).1⟩

/-- Claim C8: for every malformed `context_breakdown` argument (not a
list, or some element not a dict containing both the `title` and `body`
keys), `Agent.create` raises `ValueError` before any network call is
attempted: the call evaluates to a raised validation error, no `PostCall`
is produced, so the number of network calls performed is zero. -/
theorem agent_create_malformed_context_no_network :
    ∀ (name cb : PyVal) (kwargs : List (String × PyVal)),
      validContextBreakdown cb = false →
      raisesValueError (Agent.create name cb kwargs) = true ∧
      (name.isStr = true →
        Agent.create name cb kwargs =
          .error (.valueError
            "context_breakdown must be a list of dictionaries with 'title' and 'body'.")) := by
  intro name cb kwargs hcb
  constructor
  · cases hn : name.isStr
    · simp [Agent.create, hn, raisesValueError]
    · simp [Agent.create, hn, hcb, raisesValueError]
  · intro hn
    simp [Agent.create, hn, hcb]

/-- Claim C8 (witness): an element missing the `body` key makes
`Agent.create` raise before any network call. -/
theorem agent_create_malformed_context_no_network_witness :
    validContextBreakdown (.list [.dict [("title", .str "t")]]) = false ∧
    raisesValueError (Agent.create (.str "a")
        (.list [.dict [("title", .str "t")]]) []) = true :=
  ⟨rfl,
   (agent_create_malformed_context_no_network (.str "a")
      (.list [.dict [("title", .str "t")]]) [] rfl).1⟩

/-- Claim C9 (counterexample): the method `"PATCH"` is outside
GET/POST/PUT/DELETE, yet `Client.request` does not reject it: the full
HTTP request is built and dispatched with method `"PATCH"` and the
response is processed normally. -/
theorem request_dispatches_patch_method :
    Client.request { api_key := "abcdefgh", base_url := "https://x" }
        "PATCH" "agents" Option.none Option.none Option.none Option.none
        (.response { status := 200, content := "", parsed := Option.none,
                     errStr := "" }) =
      ({ method := "PATCH", url := "https://x/agents", params := [],
         headers := [("Authorization", "Bearer abcdefgh"),
                     ("Content-Type", "application/json"),
                     ("Accept", "application/json")],
         data := Option.none, json_data := Option.none },
       .envelope 200 (.dict [])) :=
  rfl

/-- Claim C9 (amended): `Client.request` performs no method validation at
all — every method string is upper-cased and dispatched as the network
request's method; only the convenience wrappers fix the method to one of
GET, POST, PUT and DELETE by delegating to `Client.request`. -/
theorem request_method_never_validated :
    ∀ (c : ClientState) (m ep : String)
      (p : Option (List (String × PyVal)))
      (h : Option (List (String × String)))
      (d j : Option PyVal) (t : TransportResult),
      (Client.request c m ep p h d j t).1.method = pyUpper m ∧
      Client.get c ep p h t =
        Client.request c "GET" ep p h Option.none Option.none t ∧
      Client.post c ep d p h t =
        Client.request c "POST" ep p h Option.none d t ∧
      Client.put c ep d p h t =
        Client.request c "PUT" ep p h Option.none d t ∧
      Client.delete c ep p h t =
        Client.request c "DELETE" ep p h Option.none Option.none t :=
  fun _ _ _ _ _ _ _ _ => ⟨rfl, rfl, rfl, rfl, rfl⟩

/-- Claim C10: in `Agent.create`, caller-supplied extra keyword arguments
are merged into the payload after the required fields, so a keyword
argument named `name` or `context_breakdown` overrides the validated
required argument in the dispatched payload; without such a keyword the
payload carries the required argument itself. -/
theorem agent_create_kwargs_override_required_fields :
    ∀ (name cb v : PyVal) (kwargs : List (String × PyVal)),
      name.isStr = true → validContextBreakdown cb = true →
      (kwargs.map Prod.fst).Nodup →
      ((("name", v) ∈ kwargs →
         payloadField (Agent.create name cb kwargs) "name" = some v) ∧
       (("context_breakdown", v) ∈ kwargs →
         payloadField (Agent.create name cb kwargs) "context_breakdown" =
           some v) ∧
       ("name" ∉ kwargs.map Prod.fst →
         payloadField (Agent.create name cb kwargs) "name" = some name) ∧
       ("context_breakdown" ∉ kwargs.map Prod.fst →
         payloadField (Agent.create name cb kwargs) "context_breakdown" =
           some cb)) := by
  intro name cb v kwargs hn hcb hnd
  have hcreate : Agent.create name cb kwargs =
      .ok { endpoint := "agents/create",
            data := .dict (pyDictUpdate
              [("name", name), ("context_breakdown", cb)] kwargs) } := by
    simp [Agent.create, hn, hcb]
  refine ⟨?_, ?_, ?_, ?_⟩
  · intro hmem
    simp [hcreate, payloadField,
      pyLookup_pyDictUpdate_mem kwargs _ _ _ hnd hmem]
  · intro hmem
    simp [hcreate, payloadField,
      pyLookup_pyDictUpdate_mem kwargs _ _ _ hnd hmem]
  · intro hnot
    simp only [hcreate, payloadField]
    rw [pyLookup_pyDictUpdate_not_mem kwargs _ _ hnot]
    rfl
  · intro hnot
    simp only [hcreate, payloadField]
    rw [pyLookup_pyDictUpdate_not_mem kwargs _ _ hnot]
    rfl

/-- Claim C10 (witness): a keyword argument named `name` overrides the
required `name` argument in the dispatched payload. -/
theorem agent_create_kwargs_override_required_fields_witness :
    payloadField (Agent.create (.str "n") (.list [])
        [("name", .str "override")]) "name" = some (.str "override") :=
  (agent_create_kwargs_override_required_fields (.str "n") (.list [])
      (.str "override") [("name", .str "override")] rfl rfl (by simp)).1
    (List.Mem.head _)

end Omnidim
